import Mathlib

/-!
Shallow embedding of `src/commands/upload.ts` (the `/upload` slash command:
confirmation gate, temporary-asset download, ffmpeg transcode, YouTube /
SoundCloud publish fan-out, site submission, and temporary-file cleanup).

External collaborators (discord.js, fetch, fs, child_process, the OAuth
clients, the HMAC fetch) are modelled as oracles in an `Env` record; every
observable call the command makes is recorded as an `Action` in a trace, and
the command body is translated into pure functions that return the trace
together with a result describing how the run terminated.
-/

namespace Upload

/-- A Discord attachment: a CDN `url` and the uploaded file `name`. -/
structure Attachment where
  url : String
  name : String
deriving DecidableEq, Repr

/-- The slice of the YouTube API response the command inspects:
`ytData.id` and `ytData.status?.uploadStatus` (absent status modelled
as `none`). -/
structure YtData where
  id : String
  uploadStatus : Option String
deriving DecidableEq, Repr

/-- The pair of URLs `uploadToYoutubeAndSoundcloud` returns on success. -/
structure Urls where
  youtubeUrl : String
  soundcloudUrl : String
deriving DecidableEq, Repr

/-- Outcome of a `fetch(url)` call: the promise either rejects
(`netError`, e.g. network failure) or resolves with a response whose
`ok` flag records whether the HTTP status was a success status.  The
command never reads `ok`; `res.blob()` succeeds either way. -/
inductive FetchOutcome
  | netError
  | response (ok : Bool)
deriving DecidableEq, Repr

/-- A message-component interaction delivered to the confirmation
collector: the clicking user's id and the button's customId. -/
structure GateEvent where
  userId : String
  customId : String
deriving DecidableEq, Repr

/-- Every externally observable call the command makes, in order. -/
inductive Action
  | deferReply
  | respond (content : String)
  | sendPrompt (content : String)
  | deletePrompt
  | followUp (content : String)
  | mkdirTmp
  | fetchUrl (url : String)
  | writeFileA (path : String)
  | execA (cmd : String)
  | ytUploadA (title descr : String) (tags : List String) (videoPath : String)
  | respondYtError (payload : YtData)
  | scUploadA (title descr : String) (tags : List String) (audioPath imagePath : String)
  | feedFetch
  | respondTranscodeError (stderr : String)
  | respondPublishError
  | siteSubmit (tagsIncluded : Bool)
  | respondSuccess (youtubeUrl soundcloudUrl : String)
  | respondSubmitError
  | unlinkA (path : String)
deriving DecidableEq, Repr

/-- State of the confirmation collector's closure: the `timeout` flag
(line 153), whether `confirmationCollector.stop()` has run, the value the
promise was resolved with (if any), and the actions performed by the
collect handlers. -/
structure GateState where
  timeout : Bool
  stopped : Bool
  resolved : Option Bool
  acts : List Action
deriving DecidableEq, Repr

/-- The observable resolution of the confirmation gate.  `unresolved`
means the promise was never resolved (the `await` never returns). -/
inductive GateResult
  | confirmed
  | declined
  | timedOut
  | unresolved
deriving DecidableEq, Repr

/-- How a run of the command terminated. -/
inductive RunResult
  | notSendable
  | missingFields
  | badAudioExt
  | badImageExt
  | gateHung
  | cancelled
  | downloadAborted
  | transcodeFailed
  | publishThrew
  | ytStatusFailed
  | completed (urls : Urls)
  | submissionFailed (urls : Urls)
deriving DecidableEq, Repr

/-- Oracle bundle for everything outside the command: configuration
toggles, the two random button UUIDs, whether `update.delete()` succeeds,
the component interactions that arrive within the 60s window, the two
fetch outcomes, the ffmpeg process outcome, the YouTube and SoundCloud
client outcomes, the site submission outcome, and the sha256-hex digest
function from `node:crypto`. -/
structure Env where
  canUseYoutube : Bool
  canUseSoundcloud : Bool
  yesId : String
  noId : String
  deleteOk : Bool
  gateEvents : List GateEvent
  audioFetch : FetchOutcome
  imageFetch : FetchOutcome
  transcodeOk : Bool
  transcodeStderr : String
  ytThrows : Bool
  ytData : YtData
  scThrows : Bool
  scUrl : String
  siteOk : Bool
  hash : String → String

/-! ### Models of the JavaScript string builtins the command uses -/

/-- Model of `String.prototype.split(",")`: cut at every comma, keeping
empty pieces; `acc` holds the current piece reversed. -/
def splitCommaAux : List Char → List Char → List String
  | [], acc => [String.mk acc.reverse]
  | c :: rest, acc =>
    if c = ',' then String.mk acc.reverse :: splitCommaAux rest []
    else splitCommaAux rest (c :: acc)

/-- Model of `s.split(",")` for a JavaScript string `s`. -/
def jsSplitComma (s : String) : List String :=
  splitCommaAux s.data []

/-- ASCII whitespace as trimmed by `String.prototype.trim`. -/
def isJsWhitespace (c : Char) : Bool :=
  c = ' ' || c = '\t' || c = '\n' || c = '\r' || c = '\x0b' || c = '\x0c'

/-- Model of `String.prototype.trim` (ASCII whitespace). -/
def jsTrim (s : String) : String :=
  String.mk (((s.data.dropWhile isJsWhitespace).reverse.dropWhile isJsWhitespace).reverse)

/-- Model of `Array.prototype.join(sep)`. -/
def jsJoin (sep : String) : List String → String
  | [] => ""
  | [x] => x
  | x :: xs => x ++ sep ++ jsJoin sep xs

/-- Model of `String.prototype.endsWith`. -/
def jsEndsWith (s suffix : String) : Bool :=
  suffix.data.isSuffixOf s.data

/-- In JavaScript every object is truthy; in particular `tags ? a : b`
evaluates to `a` for every array `tags`, including `[]` (line 41). -/
def jsArrayTruthy (_ : List String) : Bool := true

/-! ### Tag parsing and description payloads -/

/-- Line 109: `tagsString.length === 0 ? [] :
tagsString.split(",").map((tag) => tag.trim())`. -/
def parseTags (s : String) : List String :=
  if s.length = 0 then [] else (jsSplitComma s).map jsTrim

/-- Description payload sent to YouTube (line 28):
`description + "\n\nTags: " + (tags.length > 0 ? tags.join(", ") : "N/A")`. -/
def ytDescription (descr : String) (tags : List String) : String :=
  descr ++ "\n\nTags: " ++ (if tags.length > 0 then jsJoin ", " tags else "N/A")

/-- Description payload sent to SoundCloud (line 41):
`description + "\n\nTags: " + (tags ? tags.join(", ") : "N/A")` — the
condition is the array itself, which is always truthy. -/
def scDescription (descr : String) (tags : List String) : String :=
  descr ++ "\n\nTags: " ++ (if jsArrayTruthy tags then jsJoin ", " tags else "N/A")

/-! ### The confirmation gate (lines 150-172) -/

/-- One step of the collect handler (lines 154-165): ignore events after
`stop()`; the filter drops events from other users; a surviving event
clears `timeout`, and on a matching customId the handler awaits
`update.delete()` — when that succeeds it stops the collector and
resolves the promise, and when it throws the handler aborts, so neither
`stop()` nor `resolve` runs. -/
def collectStep (rid y n : String) (deleteOk : Bool) (s : GateState) (e : GateEvent) : GateState :=
  if s.stopped then s
  else if e.userId ≠ rid then s
  else
    let s1 := { s with timeout := false }
    if e.customId = y then
      if deleteOk then
        { s1 with acts := s1.acts ++ [Action.deletePrompt], stopped := true, resolved := some true }
      else
        { s1 with acts := s1.acts ++ [Action.deletePrompt] }
    else if e.customId = n then
      if deleteOk then
        { s1 with acts := s1.acts ++ [Action.deletePrompt], stopped := true, resolved := some false }
      else
        { s1 with acts := s1.acts ++ [Action.deletePrompt] }
    else s1

/-- Initial collector state: `timeout = true`, not stopped, promise
pending, no actions yet. -/
def gateInit : GateState := ⟨true, false, none, []⟩

/-- Process the interactions that arrive within the 60s window. -/
def runGate (rid y n : String) (deleteOk : Bool) (events : List GateEvent) : GateState :=
  events.foldl (collectStep rid y n deleteOk) gateInit

/-- The `end` handler (lines 166-171): if no surviving event ever
arrived, send the timeout follow-up (and resolve `false`). -/
def gateEndActs (s : GateState) : List Action :=
  if s.timeout then [Action.followUp "You took too long to respond"] else []

/-- The resolution the `await`ing code observes: the resolved value if a
collect handler resolved, the timeout resolution (`resolve(false)` in the
`end` handler) if `timeout` is still set, and otherwise the promise is
never resolved at all. -/
def gateResult (s : GateState) : GateResult :=
  match s.resolved with
  | some true => GateResult.confirmed
  | some false => GateResult.declined
  | none => if s.timeout then GateResult.timedOut else GateResult.unresolved

/-! ### Scratch paths (lines 182-183, 197) -/

/-- Line 182: `./.tmp/` + sha256-hex of the audio URL + the normalized
audio extension. -/
def audioPathOf (env : Env) (audio : Attachment) : String :=
  "./.tmp/" ++ env.hash audio.url ++ (if jsEndsWith audio.name ".mp3" then ".mp3" else ".wav")

/-- Line 183: `./.tmp/` + sha256-hex of the image URL + the normalized
image extension. -/
def imagePathOf (env : Env) (image : Attachment) : String :=
  "./.tmp/" ++ env.hash image.url ++ (if jsEndsWith image.name ".png" then ".png" else ".jpg")

/-- Line 197: `./.tmp/${interaction.user.id}.mp4`. -/
def videoPathOf (userId : String) : String :=
  "./.tmp/" ++ userId ++ ".mp4"

/-- The ffmpeg command line of line 198. -/
def ffmpegCmd (imagePath audioPath videoPath : String) : String :=
  "ffmpeg -loop 1 -i \"" ++ imagePath ++ "\" -i \"" ++ audioPath ++
    "\" -vf \"scale=\x27min(1920, floor(iw/2)*2)\x27:-2,format=yuv420p\" -c:v libx264 -preset medium -profile:v main -c:a aac -shortest -movflags +faststart " ++
    videoPath

/-! ### Publishing (lines 14-58) -/

/-- The SoundCloud half of `uploadToYoutubeAndSoundcloud` (lines 40-57):
when enabled, call `uploadSoundcloud` (which may throw); then fire the
feed-channel notification and return both URLs.  `soundcloudUrl` starts
as the placeholder and is overwritten only on a successful call. -/
def publishSC (env : Env) (audioPath imagePath title descr : String) (tags : List String)
    (youtubeUrl : String) (prevActs : List Action) : List Action × Except Unit (Option Urls) :=
  if env.canUseSoundcloud then
    let scActs := prevActs ++ [Action.scUploadA title (scDescription descr tags) tags audioPath imagePath]
    if env.scThrows then (scActs, Except.error ())
    else (scActs ++ [Action.feedFetch], Except.ok (some ⟨youtubeUrl, env.scUrl⟩))
  else
    (prevActs ++ [Action.feedFetch], Except.ok (some ⟨youtubeUrl, "https://example.com/"⟩))

/-- `uploadToYoutubeAndSoundcloud` (lines 14-58).  When YouTube is
enabled: call `youtubeClient.upload` (which may throw); if the returned
`uploadStatus` is not `"uploaded"`, respond with the status payload and
return `undefined` (modelled `ok none`) without attempting SoundCloud;
otherwise build the watch URL and continue to the SoundCloud half.
When YouTube is disabled the watch URL stays the placeholder. -/
def uploadToYoutubeAndSoundcloud (env : Env) (audioPath imagePath videoPath title descr : String)
    (tags : List String) : List Action × Except Unit (Option Urls) :=
  if env.canUseYoutube then
    let ytActs := [Action.ytUploadA title (ytDescription descr tags) tags videoPath]
    if env.ytThrows then (ytActs, Except.error ())
    else if env.ytData.uploadStatus ≠ some "uploaded" then
      (ytActs ++ [Action.respondYtError env.ytData], Except.ok none)
    else
      publishSC env audioPath imagePath title descr tags
        ("https://www.youtube.com/watch?v=" ++ env.ytData.id) ytActs
  else
    publishSC env audioPath imagePath title descr tags "https://example.com/" []

/-- Lines 220-224: `deleteTemporaryFiles` unlinks the video only when
YouTube is enabled (otherwise `Promise.resolve()`), then the audio and
image files; `Promise.allSettled` swallows individual failures. -/
def deleteTemporaryFiles (canUseYoutube : Bool) (videoPath audioPath imagePath : String) : List Action :=
  (if canUseYoutube then [Action.unlinkA videoPath] else []) ++
    [Action.unlinkA audioPath, Action.unlinkA imagePath]

/-- The exec callback (lines 198-246).  On a process error: respond with
the stderr and return (no cleanup).  Otherwise run the publish fan-out;
a thrown publish error is responded to and the callback returns (no
cleanup); an `undefined` result (YouTube status failure) deletes the
temporary files and returns; on success, build the multipart form
(tags field only when `tagsString` is truthy), submit to the site,
respond with the outcome, and delete the temporary files.
When YouTube is disabled, `fakeExec` invokes the callback with no error,
so the error branch is only reachable when YouTube is enabled and the
real ffmpeg process failed. -/
def execCallback (env : Env) (audioPath imagePath videoPath title descr tagsString : String)
    (tags : List String) : List Action × RunResult :=
  if env.canUseYoutube && !env.transcodeOk then
    ([Action.respondTranscodeError env.transcodeStderr], RunResult.transcodeFailed)
  else
    match uploadToYoutubeAndSoundcloud env audioPath imagePath videoPath title descr tags with
    | (upActs, Except.error ()) => (upActs ++ [Action.respondPublishError], RunResult.publishThrew)
    | (upActs, Except.ok none) =>
      (upActs ++ deleteTemporaryFiles env.canUseYoutube videoPath audioPath imagePath,
       RunResult.ytStatusFailed)
    | (upActs, Except.ok (some urls)) =>
      let submitActs := [Action.siteSubmit (tagsString != "")] ++
        (if env.siteOk then [Action.respondSuccess urls.youtubeUrl urls.soundcloudUrl]
         else [Action.respondSubmitError])
      (upActs ++ submitActs ++ deleteTemporaryFiles env.canUseYoutube videoPath audioPath imagePath,
       if env.siteOk then RunResult.completed urls else RunResult.submissionFailed urls)

/-- Lines 179-246, after the confirmation gate resolved `true`:
`mkdir(".tmp")`, download the audio then the image (each `fetch` may
reject, which propagates out of the handler and aborts the run — note no
cleanup is reachable from these aborts), then invoke ffmpeg (`exec` only
when YouTube is enabled, `fakeExec` otherwise) and continue in the
callback. -/
def runAfterConfirm (env : Env) (audio image : Attachment) (title descr tagsString : String)
    (tags : List String) (userId : String) : List Action × RunResult :=
  let audioPath := audioPathOf env audio
  let imagePath := imagePathOf env image
  match env.audioFetch with
  | FetchOutcome.netError =>
    ([Action.mkdirTmp, Action.fetchUrl audio.url], RunResult.downloadAborted)
  | FetchOutcome.response _ =>
    match env.imageFetch with
    | FetchOutcome.netError =>
      ([Action.mkdirTmp, Action.fetchUrl audio.url, Action.writeFileA audioPath,
        Action.fetchUrl image.url], RunResult.downloadAborted)
    | FetchOutcome.response _ =>
      let videoPath := videoPathOf userId
      let execActs :=
        if env.canUseYoutube then [Action.execA (ffmpegCmd imagePath audioPath videoPath)] else []
      let cb := execCallback env audioPath imagePath videoPath title descr tagsString tags
      ([Action.mkdirTmp, Action.fetchUrl audio.url, Action.writeFileA audioPath,
        Action.fetchUrl image.url, Action.writeFileA imagePath] ++ execActs ++ cb.1, cb.2)

/-- The confirmation prompt content of line 134. -/
def promptContent (title descr : String) (tags : List String) : String :=
  "Title: " ++ title ++ "\nDescription: " ++ (if descr = "" then "N/A" else descr) ++
    "\nTags: " ++ (if tags.length > 0 then jsJoin ", " tags else "N/A") ++
    "\n\nNote that if your image has a vertical (tall)/square aspect ratio, it may end up being uploaded as a short instead.\nIf you don\x27t want, then ensure your image is wide\n\nIs all of your information correct?"

/-- An upload interaction: requester id, whether the channel is
sendable, the three required options (which discord.js types as
nullable) and the two optional strings. -/
structure UploadRequest where
  userId : String
  channelSendable : Bool
  audio : Option Attachment
  image : Option Attachment
  title : Option String
  description : Option String
  tagsString : Option String

/-- The `run` handler (lines 95-247): defer, channel check, read and
parse options, null check, extension checks, send the confirmation
prompt and await the gate; a `false` resolution responds "Cancelled";
an unresolved gate leaves the run suspended forever; on `true`,
continue with downloads and the rest of the pipeline. -/
def run (env : Env) (req : UploadRequest) : List Action × RunResult :=
  if req.channelSendable = false then
    ([Action.deferReply, Action.respond "I cannot send messages in this channel"],
     RunResult.notSendable)
  else
    let descr := req.description.getD ""
    let tagsString := req.tagsString.getD ""
    let tags := parseTags tagsString
    match req.audio, req.image, req.title with
    | some audio, some image, some title =>
      if !(jsEndsWith audio.name ".mp3" || jsEndsWith audio.name ".wav") then
        ([Action.deferReply, Action.respond "The audio file must be an mp3 or wav file"],
         RunResult.badAudioExt)
      else if !(jsEndsWith image.name ".png" || jsEndsWith image.name ".jpg") then
        ([Action.deferReply, Action.respond "The image file must be a png or jpg file"],
         RunResult.badImageExt)
      else
        let gs := runGate req.userId env.yesId env.noId env.deleteOk env.gateEvents
        let gacts := [Action.deferReply, Action.sendPrompt (promptContent title descr tags)] ++
          gs.acts ++ gateEndActs gs
        match gateResult gs with
        | GateResult.unresolved => (gacts, RunResult.gateHung)
        | GateResult.timedOut => (gacts ++ [Action.respond "Cancelled"], RunResult.cancelled)
        | GateResult.declined => (gacts ++ [Action.respond "Cancelled"], RunResult.cancelled)
        | GateResult.confirmed =>
          let after := runAfterConfirm env audio image title descr tagsString tags req.userId
          (gacts ++ after.1, after.2)
    | _, _, _ =>
      ([Action.deferReply, Action.respond "You must provide both an audio and image file, and a title"],
       RunResult.missingFields)

/-! ### Trace observations -/

/-- Paths passed to `unlink` during a run. -/
def unlinks (acts : List Action) : List String :=
  acts.filterMap fun a => match a with | Action.unlinkA p => some p | _ => none

/-- Paths written by `writeFile` during a run. -/
def writes (acts : List Action) : List String :=
  acts.filterMap fun a => match a with | Action.writeFileA p => some p | _ => none

/-- Command lines passed to `exec` during a run. -/
def execCmds (acts : List Action) : List String :=
  acts.filterMap fun a => match a with | Action.execA c => some c | _ => none

/-- Number of `uploadSoundcloud` calls in a trace. -/
def scCount (acts : List Action) : Nat :=
  (acts.filter fun a => match a with | Action.scUploadA _ _ _ _ _ => true | _ => false).length

/-- Whether the publish fan-out throws, given the oracles: a YouTube
throw when enabled, else (when the YouTube stage passes its status
check or is disabled) a SoundCloud throw when enabled. -/
def publishThrows (env : Env) : Bool :=
  if env.canUseYoutube then
    env.ytThrows ||
      (env.ytData.uploadStatus == some "uploaded" && env.canUseSoundcloud && env.scThrows)
  else
    env.canUseSoundcloud && env.scThrows

/-! ### Concrete environments and requests used by the claim checks -/

/-- A confirmed request: user "u", valid mp3 + png, title "T". -/
def reqC1 : UploadRequest :=
  { userId := "u", channelSendable := true,
    audio := some ⟨"au", "a.mp3"⟩, image := some ⟨"iu", "i.png"⟩,
    title := some "T", description := some "D", tagsString := some "a, b" }

/-- Environment where the run is confirmed, both downloads succeed and
the ffmpeg process fails. -/
def envC1a : Env :=
  { canUseYoutube := true, canUseSoundcloud := true,
    yesId := "Y", noId := "N", deleteOk := true, gateEvents := [⟨"u", "Y"⟩],
    audioFetch := FetchOutcome.response true, imageFetch := FetchOutcome.response true,
    transcodeOk := false, transcodeStderr := "boom",
    ytThrows := false, ytData := ⟨"vid", some "uploaded"⟩,
    scThrows := false, scUrl := "https://soundcloud.com/x", siteOk := true,
    hash := fun s => s }

/-- Same as `envC1a` but the transcode succeeds and the YouTube upload
throws. -/
def envC1b : Env :=
  { envC1a with transcodeOk := true, ytThrows := true }

/-- Environment where everything succeeds. -/
def envC1c : Env :=
  { envC1a with transcodeOk := true }

/-- Environment where the image fetch rejects after the audio download
succeeded. -/
def envC2a : Env :=
  { envC1a with transcodeOk := true, imageFetch := FetchOutcome.netError }

/-- Environment where the image fetch resolves with a non-success HTTP
status. -/
def envC2b : Env :=
  { envC1a with transcodeOk := true, imageFetch := FetchOutcome.response false }

/-- Environment for the C5 counterexample: YouTube disabled, SoundCloud
enabled and succeeding. -/
def envC5 : Env :=
  { canUseYoutube := false, canUseSoundcloud := true,
    yesId := "Y", noId := "N", deleteOk := true, gateEvents := [],
    audioFetch := FetchOutcome.response true, imageFetch := FetchOutcome.response true,
    transcodeOk := true, transcodeStderr := "",
    ytThrows := false, ytData := ⟨"vid", some "uploaded"⟩,
    scThrows := false, scUrl := "https://soundcloud.com/x", siteOk := true,
    hash := fun s => s }

/-- Environment for the C6 witness: YouTube enabled, upload returning a
"rejected" status. -/
def envC6 : Env :=
  { canUseYoutube := true, canUseSoundcloud := true,
    yesId := "Y", noId := "N", deleteOk := true, gateEvents := [],
    audioFetch := FetchOutcome.response true, imageFetch := FetchOutcome.response true,
    transcodeOk := true, transcodeStderr := "",
    ytThrows := false, ytData := ⟨"vid", some "rejected"⟩,
    scThrows := false, scUrl := "https://soundcloud.com/x", siteOk := true,
    hash := fun s => s }

/-- Environment with YouTube disabled and SoundCloud enabled and
succeeding. -/
def envC7 : Env :=
  { envC1a with canUseYoutube := false, transcodeOk := true }

/-- Environment where no component interaction ever arrives: the
confirmation window expires. -/
def envC8 : Env :=
  { envC1a with gateEvents := [] }

/-! ### Helper lemmas -/

theorem collectStep_stopped (rid y n : String) (d : Bool) (s : GateState) (e : GateEvent)
    (h : s.stopped = true) : collectStep rid y n d s e = s := by
  simp [collectStep, h]

theorem foldl_collectStep_stopped (rid y n : String) (d : Bool) (s : GateState)
    (l : List GateEvent) (h : s.stopped = true) :
    l.foldl (collectStep rid y n d) s = s := by
  induction l with
  | nil => rfl
  | cons e t ih => rw [List.foldl_cons, collectStep_stopped rid y n d s e h]; exact ih

theorem collectStep_other (rid y n : String) (d : Bool) (s : GateState) (e : GateEvent)
    (h : e.userId ≠ rid) : collectStep rid y n d s e = s := by
  simp [collectStep, h]

theorem foldl_collectStep_other (rid y n : String) (d : Bool) (s : GateState)
    (l : List GateEvent) (h : ∀ e ∈ l, e.userId ≠ rid) :
    l.foldl (collectStep rid y n d) s = s := by
  induction l with
  | nil => rfl
  | cons e t ih =>
    rw [List.foldl_cons, collectStep_other rid y n d s e (h e (List.mem_cons_self e t))]
    exact ih fun e' he' => h e' (List.mem_cons_of_mem e he')

theorem collectStep_yes (rid y n : String) (s : GateState) (e : GateEvent)
    (hs : s.stopped = false) (hu : e.userId = rid) (hy : e.customId = y) :
    collectStep rid y n true s e =
      ⟨false, true, some true, s.acts ++ [Action.deletePrompt]⟩ := by
  simp [collectStep, hs, hu, hy]

theorem collectStep_no (rid y n : String) (s : GateState) (e : GateEvent)
    (hs : s.stopped = false) (hu : e.userId = rid) (hny : e.customId ≠ y)
    (hn : e.customId = n) :
    collectStep rid y n true s e =
      ⟨false, true, some false, s.acts ++ [Action.deletePrompt]⟩ := by
  have hnyn : ¬n = y := fun hh => hny (by rw [hn, hh])
  simp [collectStep, hs, hu, hny, hn, hnyn]

theorem gate_none_timeout (rid y n : String) (l : List GateEvent)
    (hids : ∀ e ∈ l, e.customId = y ∨ e.customId = n) (s : GateState)
    (hinv : s.resolved = none → s.timeout = true) :
    (l.foldl (collectStep rid y n true) s).resolved = none →
      (l.foldl (collectStep rid y n true) s).timeout = true := by
  induction l generalizing s with
  | nil => exact hinv
  | cons e t ih =>
    rw [List.foldl_cons]
    refine ih (fun e' he' => hids e' (List.mem_cons_of_mem e he')) _ ?_
    cases hs : s.stopped with
    | true => rw [collectStep_stopped rid y n true s e hs]; exact hinv
    | false =>
      by_cases hu : e.userId = rid
      · by_cases hy : e.customId = y
        · rw [collectStep_yes rid y n s e hs hu hy]; intro h; cases h
        · have hn : e.customId = n := (hids e (List.mem_cons_self e t)).resolve_left hy
          rw [collectStep_no rid y n s e hs hu hy hn]; intro h; cases h
      · rw [collectStep_other rid y n true s e hu]; exact hinv

theorem collectStep_deleteFail (rid y n : String) (s : GateState) (e : GateEvent)
    (hs : s.stopped = false) :
    (collectStep rid y n false s e).stopped = false ∧
    (collectStep rid y n false s e).resolved = s.resolved ∧
    (collectStep rid y n false s e).timeout =
      (if e.userId = rid then false else s.timeout) := by
  by_cases hu : e.userId = rid
  · by_cases hy : e.customId = y
    · simp [collectStep, hs, hu, hy]
    · by_cases hn : e.customId = n
      · simp [collectStep, hs, hu, hy, hn]
      · simp [collectStep, hs, hu, hy, hn]
  · simp [collectStep, hs, hu]

theorem gate_deleteFail_state (rid y n : String) (l : List GateEvent) (s : GateState)
    (hs : s.stopped = false) :
    (l.foldl (collectStep rid y n false) s).stopped = false ∧
    (l.foldl (collectStep rid y n false) s).resolved = s.resolved ∧
    (s.timeout = false → (l.foldl (collectStep rid y n false) s).timeout = false) ∧
    ((∃ e ∈ l, e.userId = rid) → (l.foldl (collectStep rid y n false) s).timeout = false) := by
  induction l generalizing s with
  | nil =>
    refine ⟨hs, rfl, fun h => h, fun h => ?_⟩
    obtain ⟨e, he, _⟩ := h
    cases he
  | cons e t ih =>
    obtain ⟨h1, h2, h3⟩ := collectStep_deleteFail rid y n s e hs
    obtain ⟨ih1, ih2, ih3, ih4⟩ := ih (collectStep rid y n false s e) h1
    rw [List.foldl_cons]
    refine ⟨ih1, ih2.trans h2, fun hto => ih3 (by rw [h3, hto]; simp), fun hex => ?_⟩
    by_cases hu : e.userId = rid
    · exact ih3 (by rw [h3, if_pos hu])
    · obtain ⟨e', he', hu'⟩ := hex
      rcases List.mem_cons.mp he' with h | h
      · exact absurd (h ▸ hu') hu
      · exact ih4 ⟨e', h, hu'⟩

theorem splitCommaAux_no_comma (l : List Char) (acc : List Char)
    (h : (',' : Char) ∉ l) :
    splitCommaAux l acc = [String.mk (acc.reverse ++ l)] := by
  induction l generalizing acc with
  | nil => simp [splitCommaAux]
  | cons c t ih =>
    have hc : ¬c = ',' := fun hc => h (hc ▸ List.mem_cons_self c t)
    rw [splitCommaAux, if_neg hc, ih (c :: acc) (fun ht => h (List.mem_cons_of_mem c ht))]
    simp

theorem splitCommaAux_append (l1 l2 : List Char) (acc : List Char)
    (h : (',' : Char) ∉ l1) :
    splitCommaAux (l1 ++ ',' :: l2) acc =
      String.mk (acc.reverse ++ l1) :: splitCommaAux l2 [] := by
  induction l1 generalizing acc with
  | nil => simp [splitCommaAux]
  | cons c t ih =>
    have hc : ¬c = ',' := fun hc => h (hc ▸ List.mem_cons_self c t)
    rw [List.cons_append, splitCommaAux, if_neg hc,
      ih (c :: acc) (fun ht => h (List.mem_cons_of_mem c ht))]
    simp

theorem jsSplitComma_join (ts : List String) (h : ∀ t ∈ ts, (',' : Char) ∉ t.data)
    (hne : ts ≠ []) :
    jsSplitComma (jsJoin "," ts) = ts := by
  induction ts with
  | nil => cases hne rfl
  | cons t rest ih =>
    cases rest with
    | nil =>
      rw [jsJoin, jsSplitComma,
        splitCommaAux_no_comma t.data [] (h t (List.mem_cons_self t []))]
      simp
    | cons t2 r2 =>
      have hjoin : jsJoin "," (t :: t2 :: r2) = t ++ "," ++ jsJoin "," (t2 :: r2) := rfl
      have hdata : (t ++ "," ++ jsJoin "," (t2 :: r2)).data =
          t.data ++ ',' :: (jsJoin "," (t2 :: r2)).data := by
        rw [String.data_append, String.data_append]
        simp
      rw [jsSplitComma, hjoin, hdata,
        splitCommaAux_append t.data (jsJoin "," (t2 :: r2)).data []
          (h t (List.mem_cons_self t (t2 :: r2)))]
      rw [jsSplitComma] at ih
      rw [ih (fun t' ht' => h t' (List.mem_cons_of_mem t ht')) (by simp)]
      simp

theorem execCallback_ne_downloadAborted (env : Env)
    (audioPath imagePath videoPath title descr tagsString : String) (tags : List String) :
    (execCallback env audioPath imagePath videoPath title descr tagsString tags).2 ≠
      RunResult.downloadAborted := by
  cases hcy : env.canUseYoutube <;> cases htok : env.transcodeOk <;>
    cases hytt : env.ytThrows <;> cases hcs : env.canUseSoundcloud <;>
    cases hsct : env.scThrows <;> cases hsok : env.siteOk <;>
    by_cases hst : env.ytData.uploadStatus = some "uploaded" <;>
    simp [execCallback, uploadToYoutubeAndSoundcloud, publishSC,
      hcy, htok, hytt, hcs, hsct, hsok, hst]

theorem execCmds_execCallback (env : Env)
    (audioPath imagePath videoPath title descr tagsString : String) (tags : List String) :
    execCmds (execCallback env audioPath imagePath videoPath title descr tagsString tags).1 = [] := by
  cases hcy : env.canUseYoutube <;> cases htok : env.transcodeOk <;>
    cases hytt : env.ytThrows <;> cases hcs : env.canUseSoundcloud <;>
    cases hsct : env.scThrows <;> cases hsok : env.siteOk <;>
    by_cases hst : env.ytData.uploadStatus = some "uploaded" <;>
    simp [execCallback, uploadToYoutubeAndSoundcloud, publishSC, deleteTemporaryFiles,
      execCmds, hcy, htok, hytt, hcs, hsct, hsok, hst]

theorem execCmds_runAfterConfirm (env : Env) (audio image : Attachment)
    (title descr tagsString : String) (tags : List String) (userId : String) (ba bi : Bool)
    (hcy : env.canUseYoutube = true)
    (ha : env.audioFetch = FetchOutcome.response ba)
    (hi : env.imageFetch = FetchOutcome.response bi) :
    execCmds (runAfterConfirm env audio image title descr tagsString tags userId).1 =
      [ffmpegCmd (imagePathOf env image) (audioPathOf env audio) (videoPathOf userId)] := by
  cases htok : env.transcodeOk <;> cases hytt : env.ytThrows <;>
    cases hcs : env.canUseSoundcloud <;> cases hsct : env.scThrows <;>
    cases hsok : env.siteOk <;>
    by_cases hst : env.ytData.uploadStatus = some "uploaded" <;>
    simp [runAfterConfirm, execCallback, uploadToYoutubeAndSoundcloud, publishSC,
      deleteTemporaryFiles, execCmds, ha, hi, hcy, htok, hytt, hcs, hsct, hsok, hst]

/-! ### Claim theorems -/

/-- Counterexample to claim C1 as stated: a run that reaches the
download stage (two files written) and then fails in the transcode, or
in a throwing publish target, attempts no deletion at all — the
temporary files are leaked. -/
theorem cleanup_skipped_on_failure_cex :
    ((run envC1a reqC1).2 = RunResult.transcodeFailed ∧
      writes (run envC1a reqC1).1 = ["./.tmp/au.mp3", "./.tmp/iu.png"] ∧
      unlinks (run envC1a reqC1).1 = []) ∧
    ((run envC1b reqC1).2 = RunResult.publishThrew ∧
      writes (run envC1b reqC1).1 = ["./.tmp/au.mp3", "./.tmp/iu.png"] ∧
      unlinks (run envC1b reqC1).1 = []) := by decide

/-- Claim C1 amended: on a run that reaches the download stage and
downloads both files, cleanup is attempted (once per file) only on the
paths that pass through the end of the exec callback — the
YouTube-status-failure path and the submission path; when the transcode
fails or a publish target throws, the callback returns early and no
deletion is attempted at all. -/
theorem cleanup_exactly_on_publish_complete_paths (env : Env) (audio image : Attachment)
    (title descr tagsString : String) (tags : List String) (userId : String)
    (ba bi : Bool)
    (ha : env.audioFetch = FetchOutcome.response ba)
    (hi : env.imageFetch = FetchOutcome.response bi) :
    unlinks (runAfterConfirm env audio image title descr tagsString tags userId).1 =
      if env.canUseYoutube && !env.transcodeOk then []
      else if publishThrows env then []
      else (if env.canUseYoutube then [videoPathOf userId] else []) ++
        [audioPathOf env audio, imagePathOf env image] := by
  cases hcy : env.canUseYoutube <;> cases htok : env.transcodeOk <;>
    cases hytt : env.ytThrows <;> cases hcs : env.canUseSoundcloud <;>
    cases hsct : env.scThrows <;> cases hsok : env.siteOk <;>
    by_cases hst : env.ytData.uploadStatus = some "uploaded" <;>
    simp [runAfterConfirm, execCallback, uploadToYoutubeAndSoundcloud, publishSC,
      deleteTemporaryFiles, publishThrows, unlinks, ha, hi,
      hcy, htok, hytt, hcs, hsct, hsok, hst]

/-- Witness for the C1 amended theorem at a concrete environment where
the pipeline completes: all three files are unlinked exactly once. -/
theorem cleanup_exactly_on_publish_complete_paths_witness :
    unlinks (runAfterConfirm envC1c ⟨"au", "a.mp3"⟩ ⟨"iu", "i.png"⟩ "T" "D" "a, b"
      ["a", "b"] "u").1 = ["./.tmp/u.mp4", "./.tmp/au.mp3", "./.tmp/iu.png"] := by
  have h := cleanup_exactly_on_publish_complete_paths envC1c ⟨"au", "a.mp3"⟩ ⟨"iu", "i.png"⟩
    "T" "D" "a, b" ["a", "b"] "u" true true rfl rfl
  rw [h]
  decide

/-- Counterexample to claim C2 as stated: when the image fetch rejects
after the audio was written, the run aborts with one file written and
zero deletions (cleanup does not run over the written files); and a
non-success HTTP status does not make the store step fail — the body is
written and the pipeline continues. -/
theorem download_failure_no_cleanup_cex :
    ((run envC2a reqC1).2 = RunResult.downloadAborted ∧
      writes (run envC2a reqC1).1 = ["./.tmp/au.mp3"] ∧
      unlinks (run envC2a reqC1).1 = []) ∧
    ((run envC2b reqC1).2 ≠ RunResult.downloadAborted ∧
      writes (run envC2b reqC1).1 = ["./.tmp/au.mp3", "./.tmp/iu.png"]) := by decide

/-- Claim C2 amended: a rejected fetch propagates and aborts the
pipeline without retry, but no cleanup runs — the trace after the abort
contains no unlink, so a file already written (the audio, when the image
fetch fails) is leaked; a response with a non-success HTTP status is not
a failure at all: its body is written and the pipeline continues. -/
theorem download_failure_aborts_without_cleanup (env : Env) (audio image : Attachment)
    (title descr tagsString : String) (tags : List String) (userId : String) :
    (env.audioFetch = FetchOutcome.netError →
      runAfterConfirm env audio image title descr tagsString tags userId =
        ([Action.mkdirTmp, Action.fetchUrl audio.url], RunResult.downloadAborted)) ∧
    (∀ b, env.audioFetch = FetchOutcome.response b →
      env.imageFetch = FetchOutcome.netError →
      runAfterConfirm env audio image title descr tagsString tags userId =
        ([Action.mkdirTmp, Action.fetchUrl audio.url,
          Action.writeFileA (audioPathOf env audio), Action.fetchUrl image.url],
          RunResult.downloadAborted)) ∧
    (∀ ba bi, env.audioFetch = FetchOutcome.response ba →
      env.imageFetch = FetchOutcome.response bi →
      (runAfterConfirm env audio image title descr tagsString tags userId).2 ≠
        RunResult.downloadAborted ∧
      Action.writeFileA (imagePathOf env image) ∈
        (runAfterConfirm env audio image title descr tagsString tags userId).1) := by
  refine ⟨fun ha => ?_, fun b ha hi => ?_, fun ba bi ha hi => ⟨?_, ?_⟩⟩
  · simp [runAfterConfirm, ha]
  · simp [runAfterConfirm, ha, hi]
  · simp only [runAfterConfirm, ha, hi]
    exact execCallback_ne_downloadAborted env (audioPathOf env audio) (imagePathOf env image)
      (videoPathOf userId) title descr tagsString tags
  · simp [runAfterConfirm, ha, hi]

/-- Witness for the C2 amended theorem at a concrete environment. -/
theorem download_failure_aborts_without_cleanup_witness :
    runAfterConfirm envC2a ⟨"au", "a.mp3"⟩ ⟨"iu", "i.png"⟩ "T" "D" "" [] "u" =
      ([Action.mkdirTmp, Action.fetchUrl "au",
        Action.writeFileA (audioPathOf envC2a ⟨"au", "a.mp3"⟩), Action.fetchUrl "iu"],
        RunResult.downloadAborted) :=
  (download_failure_aborts_without_cleanup envC2a ⟨"au", "a.mp3"⟩ ⟨"iu", "i.png"⟩
    "T" "D" "" [] "u").2.1 true rfl rfl

/-- Claim C3: for every sequence of confirmation events (with the two
button ids as the only customIds, and prompt deletion succeeding), the
gate resolves to exactly one of Confirmed/Declined/TimedOut; the first
event from the requester determines the outcome, and the collector state
is unchanged by every later event (the listener is stopped). -/
theorem confirmation_gate_resolution (rid y n : String) (events : List GateEvent)
    (hids : ∀ e ∈ events, e.customId = y ∨ e.customId = n) :
    gateResult (runGate rid y n true events) ≠ GateResult.unresolved ∧
    (∀ pre e post, events = pre ++ e :: post → (∀ e' ∈ pre, e'.userId ≠ rid) →
      e.userId = rid →
      runGate rid y n true events = runGate rid y n true (pre ++ [e]) ∧
      gateResult (runGate rid y n true events) =
        (if e.customId = y then GateResult.confirmed else GateResult.declined)) := by
  constructor
  · have hinv := gate_none_timeout rid y n events hids gateInit (fun _ => rfl)
    unfold gateResult
    cases hres : (runGate rid y n true events).resolved with
    | some b => cases b <;> simp
    | none =>
      rw [runGate] at hres
      rw [runGate, hinv hres]
      simp
  · intro pre e post hev hpre hu
    subst hev
    have hpre1 : List.foldl (collectStep rid y n true) gateInit pre = gateInit :=
      foldl_collectStep_other rid y n true gateInit pre hpre
    have hmem : e ∈ pre ++ e :: post := List.mem_append_right pre (List.mem_cons_self e post)
    by_cases hy : e.customId = y
    · have hstep := collectStep_yes rid y n gateInit e rfl hu hy
      have h1 : runGate rid y n true (pre ++ e :: post) =
          ⟨false, true, some true, [Action.deletePrompt]⟩ := by
        rw [runGate, List.foldl_append, hpre1, List.foldl_cons, hstep,
          foldl_collectStep_stopped rid y n true _ post rfl]
        rfl
      have h2 : runGate rid y n true (pre ++ [e]) =
          ⟨false, true, some true, [Action.deletePrompt]⟩ := by
        rw [runGate, List.foldl_append, hpre1, List.foldl_cons, hstep]
        rfl
      rw [h1, h2, if_pos hy]
      exact ⟨rfl, rfl⟩
    · have hn : e.customId = n := (hids e hmem).resolve_left hy
      have hstep := collectStep_no rid y n gateInit e rfl hu hy hn
      have h1 : runGate rid y n true (pre ++ e :: post) =
          ⟨false, true, some false, [Action.deletePrompt]⟩ := by
        rw [runGate, List.foldl_append, hpre1, List.foldl_cons, hstep,
          foldl_collectStep_stopped rid y n true _ post rfl]
        rfl
      have h2 : runGate rid y n true (pre ++ [e]) =
          ⟨false, true, some false, [Action.deletePrompt]⟩ := by
        rw [runGate, List.foldl_append, hpre1, List.foldl_cons, hstep]
        rfl
      rw [h1, h2, if_neg hy]
      exact ⟨rfl, rfl⟩

/-- Witness for C3 at a concrete event list: a decline event from the
requester, followed by a stray confirm event, resolves Declined. -/
theorem confirmation_gate_resolution_witness :
    gateResult (runGate "u" "Y" "N" true [⟨"u", "N"⟩, ⟨"u", "Y"⟩]) = GateResult.declined := by
  have h := (confirmation_gate_resolution "u" "Y" "N" [⟨"u", "N"⟩, ⟨"u", "Y"⟩]
      (by decide)).2 [] ⟨"u", "N"⟩ [⟨"u", "Y"⟩] rfl (by intro e' he'; cases he') rfl
  rw [h.2]
  decide

/-- Counterexample to claim C4 as stated: a whitespace-only tag field
parses to a singleton list containing the empty string (not the empty
list), and empty entries are not dropped. -/
theorem parseTags_whitespace_cex :
    parseTags " " = [""] ∧ parseTags "a,,b" = ["a", "", "b"] := by decide

/-- Claim C4 amended: an empty tag field yields the empty list, but a
whitespace-only field yields one empty tag; a non-empty field is split
at commas with every entry trimmed and order preserved, and entries that
are empty after trimming are kept, not dropped. -/
theorem parseTags_amended :
    parseTags "" = [] ∧
    parseTags " " = [""] ∧
    (∀ s : String, s.length ≠ 0 → parseTags s = (jsSplitComma s).map jsTrim) ∧
    (∀ ts : List String, (∀ t ∈ ts, (',' : Char) ∉ t.data) →
      (jsJoin "," ts).length ≠ 0 →
      parseTags (jsJoin "," ts) = ts.map jsTrim) := by
  refine ⟨rfl, by decide, fun s hs => by rw [parseTags, if_neg hs], fun ts hts hlen => ?_⟩
  have hne : ts ≠ [] := by rintro rfl; exact hlen rfl
  rw [parseTags, if_neg hlen, jsSplitComma_join ts hts hne]

/-- Witness for the C4 amended theorem at concrete inputs. -/
theorem parseTags_amended_witness :
    parseTags "x" = (jsSplitComma "x").map jsTrim ∧
    parseTags (jsJoin "," [" a ", "b"]) = [" a ", "b"].map jsTrim := by
  refine ⟨parseTags_amended.2.2.1 "x" (by decide),
    parseTags_amended.2.2.2 [" a ", "b"] (by decide) (by decide)⟩

/-- Counterexample to claim C5 as stated: with an empty tag list the
SoundCloud description payload is "D\n\nTags: " — the trailing tags line
is empty, not the "N/A" marker (the `tags ? ... : "N/A"` check at
line 41 tests the array itself, which is always truthy). -/
theorem soundcloud_empty_tags_cex :
    uploadToYoutubeAndSoundcloud envC5 "a" "i" "v" "T" "D" [] =
      ([Action.scUploadA "T" "D\n\nTags: " [] "a" "i", Action.feedFetch],
        Except.ok (some ⟨"https://example.com/", "https://soundcloud.com/x"⟩)) ∧
    scDescription "D" [] = "D\n\nTags: " ∧
    jsEndsWith (scDescription "D" []) "N/A" = false := by
  refine ⟨rfl, rfl, by decide⟩

/-- Claim C5 amended: both payloads end in the "\n\nTags: " trailing
line; the YouTube payload renders "N/A" for an empty tag list, but the
SoundCloud payload always renders the joined tags, so an empty list
yields an empty value after "Tags: " rather than "N/A". -/
theorem tags_line_amended (descr : String) (tags : List String) :
    (tags ≠ [] → scDescription descr tags = ytDescription descr tags) ∧
    scDescription descr tags = descr ++ "\n\nTags: " ++ jsJoin ", " tags ∧
    scDescription descr [] = descr ++ "\n\nTags: " ∧
    ytDescription descr [] = descr ++ "\n\nTags: N/A" := by
  refine ⟨fun h => ?_, rfl, ?_, ?_⟩
  · have hlen : 0 < tags.length := List.length_pos.mpr h
    rw [scDescription, ytDescription, jsArrayTruthy, if_pos rfl, if_pos hlen]
  · rw [scDescription, jsArrayTruthy, if_pos rfl]
    show descr ++ "\n\nTags: " ++ "" = descr ++ "\n\nTags: "
    simp [String.ext_iff, String.data_append]
  · rw [ytDescription]
    show descr ++ "\n\nTags: " ++ "N/A" = descr ++ "\n\nTags: N/A"
    simp [String.ext_iff, String.data_append]

/-- Witness for the C5 amended theorem at concrete inputs. -/
theorem tags_line_amended_witness :
    scDescription "D" ["a"] = ytDescription "D" ["a"] :=
  (tags_line_amended "D" ["a"]).1 (by decide)

/-- Claim C6: when YouTube is enabled and the upload's status is not
"uploaded", the publish stage stops there: the failure is reported with
the platform's status payload (when the call returned) and SoundCloud is
never attempted. -/
theorem youtube_failure_stops_publish (env : Env)
    (audioPath imagePath videoPath title descr : String) (tags : List String)
    (hcy : env.canUseYoutube = true)
    (hst : env.ytData.uploadStatus ≠ some "uploaded") :
    (env.ytThrows = false →
      uploadToYoutubeAndSoundcloud env audioPath imagePath videoPath title descr tags =
        ([Action.ytUploadA title (ytDescription descr tags) tags videoPath,
          Action.respondYtError env.ytData], Except.ok none)) ∧
    (env.ytThrows = true →
      uploadToYoutubeAndSoundcloud env audioPath imagePath videoPath title descr tags =
        ([Action.ytUploadA title (ytDescription descr tags) tags videoPath],
          Except.error ())) ∧
    scCount (uploadToYoutubeAndSoundcloud env audioPath imagePath videoPath title descr tags).1 = 0 := by
  cases hytt : env.ytThrows <;>
    simp [uploadToYoutubeAndSoundcloud, hcy, hst, hytt, scCount]

/-- Witness for C6 at a concrete environment. -/
theorem youtube_failure_stops_publish_witness :
    uploadToYoutubeAndSoundcloud envC6 "a" "i" "v" "T" "D" [] =
      ([Action.ytUploadA "T" (ytDescription "D" []) [] "v",
        Action.respondYtError envC6.ytData], Except.ok none) :=
  (youtube_failure_stops_publish envC6 "a" "i" "v" "T" "D" [] rfl (by decide)).1 rfl

/-- Claim C7: with the YouTube target disabled, a run that gets past the
downloads invokes no encoder, attempts SoundCloud exactly when it is
enabled, and any completed outcome reports the fixed placeholder as the
video URL. -/
theorem youtube_disabled_behavior (env : Env) (audio image : Attachment)
    (title descr tagsString : String) (tags : List String) (userId : String) (ba bi : Bool)
    (hcy : env.canUseYoutube = false)
    (ha : env.audioFetch = FetchOutcome.response ba)
    (hi : env.imageFetch = FetchOutcome.response bi) :
    execCmds (runAfterConfirm env audio image title descr tagsString tags userId).1 = [] ∧
    scCount (runAfterConfirm env audio image title descr tagsString tags userId).1 =
      (if env.canUseSoundcloud then 1 else 0) ∧
    (∀ u, ((runAfterConfirm env audio image title descr tagsString tags userId).2 =
        RunResult.completed u ∨
      (runAfterConfirm env audio image title descr tagsString tags userId).2 =
        RunResult.submissionFailed u) →
      u.youtubeUrl = "https://example.com/") := by
  cases hcs : env.canUseSoundcloud <;> cases hsct : env.scThrows <;>
    cases hsok : env.siteOk <;>
    simp [runAfterConfirm, execCallback, uploadToYoutubeAndSoundcloud, publishSC,
      deleteTemporaryFiles, execCmds, scCount, ha, hi, hcy, hcs, hsct, hsok]

/-- Witness for C7 at a concrete environment. -/
theorem youtube_disabled_behavior_witness :
    execCmds (runAfterConfirm envC7 ⟨"au", "a.mp3"⟩ ⟨"iu", "i.png"⟩ "T" "D" "" [] "u").1 = [] ∧
    scCount (runAfterConfirm envC7 ⟨"au", "a.mp3"⟩ ⟨"iu", "i.png"⟩ "T" "D" "" [] "u").1 = 1 := by
  have h := youtube_disabled_behavior envC7 ⟨"au", "a.mp3"⟩ ⟨"iu", "i.png"⟩ "T" "D" "" []
    "u" true true rfl rfl rfl
  exact ⟨h.1, by rw [h.2.1]; rfl⟩

/-- Counterexample to claim C8 as stated: on a timeout the prompt is
never removed (no prompt deletion in the trace) and an extra timeout
notice is sent — the side effects are not limited to removing the
prompt. -/
theorem timeout_prompt_not_removed_cex :
    Action.deletePrompt ∉ (run envC8 reqC1).1 ∧
    Action.followUp "You took too long to respond" ∈ (run envC8 reqC1).1 ∧
    (run envC8 reqC1).2 = RunResult.cancelled := by decide

/-- Claim C8 amended: on a confirmation timeout the pipeline result is
the same `cancelled` outcome as a decline and the complete trace is the
deferral, the prompt, the timeout follow-up and the cancellation reply —
no download, no file write, no publish, no unlink; but the prompt is not
removed (no prompt deletion occurs); instead a timeout notice is sent. -/
theorem timeout_cancel_amended (env : Env) (req : UploadRequest) (audio image : Attachment)
    (title : String)
    (hsend : req.channelSendable = true)
    (haud : req.audio = some audio) (him : req.image = some image) (ht : req.title = some title)
    (hax : (jsEndsWith audio.name ".mp3" || jsEndsWith audio.name ".wav") = true)
    (hix : (jsEndsWith image.name ".png" || jsEndsWith image.name ".jpg") = true)
    (hgate : ∀ e ∈ env.gateEvents, e.userId ≠ req.userId) :
    run env req =
      ([Action.deferReply,
        Action.sendPrompt (promptContent title (req.description.getD "")
          (parseTags (req.tagsString.getD ""))),
        Action.followUp "You took too long to respond",
        Action.respond "Cancelled"], RunResult.cancelled) ∧
    Action.deletePrompt ∉ (run env req).1 ∧
    writes (run env req).1 = [] ∧
    unlinks (run env req).1 = [] := by
  have hg : runGate req.userId env.yesId env.noId env.deleteOk env.gateEvents = gateInit :=
    foldl_collectStep_other req.userId env.yesId env.noId env.deleteOk gateInit
      env.gateEvents hgate
  have h1 : run env req =
      ([Action.deferReply,
        Action.sendPrompt (promptContent title (req.description.getD "")
          (parseTags (req.tagsString.getD ""))),
        Action.followUp "You took too long to respond",
        Action.respond "Cancelled"], RunResult.cancelled) := by
    simp [run, hsend, haud, him, ht, hax, hix, hg, gateResult, gateInit, gateEndActs]
  refine ⟨h1, ?_, ?_, ?_⟩ <;> rw [h1] <;> simp [writes, unlinks]

/-- Witness for the C8 amended theorem at a concrete environment. -/
theorem timeout_cancel_amended_witness :
    run envC8 reqC1 =
      ([Action.deferReply,
        Action.sendPrompt (promptContent "T" "D" (parseTags "a, b")),
        Action.followUp "You took too long to respond",
        Action.respond "Cancelled"], RunResult.cancelled) := by
  have h := timeout_cancel_amended envC8 reqC1 ⟨"au", "a.mp3"⟩ ⟨"iu", "i.png"⟩ "T"
    rfl rfl rfl rfl (by decide) (by decide) (by decide)
  exact h.1

/-- Counterexample to claim C9 as stated: with a confirm click whose
prompt deletion fails, the gate does not return the Confirmed decision —
the promise is never resolved. -/
theorem delete_failure_gate_hangs_cex :
    (runGate "u" "Y" "N" false [⟨"u", "Y"⟩]).resolved = none ∧
    gateResult (runGate "u" "Y" "N" false [⟨"u", "Y"⟩]) ≠ GateResult.confirmed ∧
    (runGate "u" "Y" "N" true [⟨"u", "Y"⟩]).resolved = some true := by
  decide

/-- Claim C9 amended: when prompt deletion fails, the collect handler
aborts before `stop()`/`resolve`, so the gate never resolves at all:
no decision is returned and (since `timeout` was already cleared) the
`end` handler does not resolve either — the awaiting pipeline hangs. -/
theorem delete_failure_never_resolves (rid y n : String) (events : List GateEvent)
    (h : ∃ e ∈ events, e.userId = rid) :
    gateResult (runGate rid y n false events) = GateResult.unresolved := by
  obtain ⟨_, hres, _, hto⟩ := gate_deleteFail_state rid y n events gateInit rfl
  rw [runGate] at *
  rw [gateResult, hres, hto h]
  rfl

/-- Witness for the C9 amended theorem at a concrete event list. -/
theorem delete_failure_never_resolves_witness :
    gateResult (runGate "u" "Y" "N" false [⟨"u", "Y"⟩]) = GateResult.unresolved :=
  delete_failure_never_resolves "u" "Y" "N" [⟨"u", "Y"⟩] (by decide)

/-- Claim C10: the transcoded video's scratch path is derived from the
requester's user id alone — any two runs by the same user, with
arbitrary (different) audio and image attachments, invoke ffmpeg with
the same output path `./.tmp/<userId>.mp4`, while the audio and image
scratch paths are hash-derived from the source URLs. -/
theorem videoPath_depends_only_on_user (env1 env2 : Env) (a1 i1 a2 i2 : Attachment)
    (t1 d1 ts1 : String) (tg1 : List String) (t2 d2 ts2 : String) (tg2 : List String)
    (uid : String) (b1 b2 b3 b4 : Bool)
    (h1 : env1.canUseYoutube = true) (h2 : env2.canUseYoutube = true)
    (ha1 : env1.audioFetch = FetchOutcome.response b1)
    (hi1 : env1.imageFetch = FetchOutcome.response b2)
    (ha2 : env2.audioFetch = FetchOutcome.response b3)
    (hi2 : env2.imageFetch = FetchOutcome.response b4) :
    execCmds (runAfterConfirm env1 a1 i1 t1 d1 ts1 tg1 uid).1 =
      [ffmpegCmd (imagePathOf env1 i1) (audioPathOf env1 a1) (videoPathOf uid)] ∧
    execCmds (runAfterConfirm env2 a2 i2 t2 d2 ts2 tg2 uid).1 =
      [ffmpegCmd (imagePathOf env2 i2) (audioPathOf env2 a2) (videoPathOf uid)] ∧
    videoPathOf uid = "./.tmp/" ++ uid ++ ".mp4" :=
  ⟨execCmds_runAfterConfirm env1 a1 i1 t1 d1 ts1 tg1 uid b1 b2 h1 ha1 hi1,
   execCmds_runAfterConfirm env2 a2 i2 t2 d2 ts2 tg2 uid b3 b4 h2 ha2 hi2,
   rfl⟩

/-- Witness for C10: two runs by user "u" with entirely different
attachments target the same video path. -/
theorem videoPath_depends_only_on_user_witness :
    execCmds (runAfterConfirm envC1c ⟨"au", "a.mp3"⟩ ⟨"iu", "i.png"⟩ "T" "D" "" [] "u").1 =
      [ffmpegCmd (imagePathOf envC1c ⟨"iu", "i.png"⟩) (audioPathOf envC1c ⟨"au", "a.mp3"⟩)
        (videoPathOf "u")] ∧
    execCmds (runAfterConfirm envC1c ⟨"au2", "b.wav"⟩ ⟨"iu2", "j.jpg"⟩ "S" "E" "" [] "u").1 =
      [ffmpegCmd (imagePathOf envC1c ⟨"iu2", "j.jpg"⟩) (audioPathOf envC1c ⟨"au2", "b.wav"⟩)
        (videoPathOf "u")] := by
  have h := videoPath_depends_only_on_user envC1c envC1c ⟨"au", "a.mp3"⟩ ⟨"iu", "i.png"⟩
    ⟨"au2", "b.wav"⟩ ⟨"iu2", "j.jpg"⟩ "T" "D" "" [] "S" "E" "" [] "u" true true true true
    rfl rfl rfl rfl rfl rfl
  exact ⟨h.1, h.2.1⟩

end Upload
